import Mathlib

/-!
# Verification of the Oura advanced-analytics pipeline

Shallow embedding of `src/advanced_analytics.py`: the feature synthesizer
(`create_forecast_features`), the forecast trainer/evaluator
(`forecast_readiness`), the anomaly detector (`detect_anomalies`) and the
baseline estimator (`calculate_personal_baselines`), together with proofs of
the specification's claims about them.

A pandas `DataFrame` is embedded as a list of dates (the `date` column)
plus an association list from column names to columns; a column is a list
of optional rationals, `none` standing for a missing value (`NaN`).
Floating-point arithmetic is idealised as exact rational arithmetic, with
`Real.sqrt` for the standard deviation; `NaN` results of aggregations
(mean/median/std over empty or too-short data) are modelled as `none`, and
the float rule "every comparison with NaN is false" is made explicit where
the source relies on it.
-/

namespace Oura

/-- A column of a data frame: one optional rational per row (`none` = NaN). -/
abbrev Col := List (Option ℚ)

/-- A data frame: the `date` column (as integers, e.g. epoch days) plus the
named numeric columns.  Association list order mirrors pandas column order;
`getCol?` takes the first match like pandas label lookup. -/
structure DF where
  dates : List ℤ
  cols : List (String × Col)
deriving DecidableEq

/-- `name in df.columns` (for the numeric columns; the `date` column is the
`dates` field). -/
def hasCol (df : DF) (nm : String) : Bool :=
  df.cols.any (fun p => p.1 == nm)

/-- `df[name]`, `none` when the column is missing (a `KeyError` in pandas). -/
def getCol? (df : DF) (nm : String) : Option Col :=
  (df.cols.find? (fun p => p.1 == nm)).map Prod.snd

/-- `df[name]` where the caller has established the column exists. -/
def getD (df : DF) (nm : String) : Col :=
  (getCol? df nm).getD []

/-- `df[name] = v`: replace the column in place if present, else append it
on the right, as pandas column assignment does. -/
def setCol (df : DF) (nm : String) (v : Col) : DF :=
  if df.cols.any (fun p => p.1 == nm) then
    ⟨df.dates, df.cols.map (fun p => if p.1 == nm then (nm, v) else p)⟩
  else
    ⟨df.dates, df.cols ++ [(nm, v)]⟩

/-- Well-formedness: every column has as many entries as there are dates. -/
def WF (df : DF) : Bool :=
  df.cols.all (fun p => p.2.length == df.dates.length)

/-- `series.shift(k)` for `k ≥ 0`: row `i` receives the value of row
`i - k`, the first `k` rows become NaN, length is preserved. -/
def shiftDown (k : ℕ) (xs : Col) : Col :=
  List.replicate (min k xs.length) none ++ xs.take (xs.length - k)

/-- `series.shift(-1)`: row `i` receives the value of row `i + 1`, the last
row becomes NaN, length is preserved. -/
def shiftUp (xs : Col) : Col :=
  match xs with
  | [] => []
  | _ :: t => t ++ [none]

/-- The trailing window of width `w` ending at row `i` (rows
`i - w + 1 .. i`). -/
def windowOf (xs : Col) (i w : ℕ) : List (Option ℚ) :=
  (xs.drop (i + 1 - w)).take w

/-- Values of a series with the NaNs dropped (`series.dropna()`). -/
def presentVals (xs : Col) : List ℚ :=
  xs.filterMap id

/-- `series.rolling(w).mean()`: row `i` gets the mean of the trailing `w`
rows when `i + 1 ≥ w` and all of them are non-NaN, else NaN (pandas
`min_periods` defaults to the window size). -/
def rollMean (w : ℕ) (xs : Col) : Col :=
  (List.range xs.length).map (fun i =>
    if w ≤ i + 1 ∧ (windowOf xs i w).all Option.isSome then
      some ((presentVals (windowOf xs i w)).sum / (w : ℚ))
    else none)

/-- Insert into a sorted list of rationals. -/
def insertSorted (x : ℚ) : List ℚ → List ℚ
  | [] => [x]
  | y :: ys => if x ≤ y then x :: y :: ys else y :: insertSorted x ys

/-- Sort a list of rationals ascending (insertion sort). -/
def sortQ (xs : List ℚ) : List ℚ :=
  xs.foldr insertSorted []

/-- `series.mean()` over already-dropna'd values (junk on `[]`; callers
guard emptiness). -/
def meanQ (xs : List ℚ) : ℚ :=
  xs.sum / (xs.length : ℚ)

/-- `series.median()` over already-dropna'd values: middle of the sorted
list, or the average of the two middles; NaN (`none`) on empty input. -/
def medianQ (xs : List ℚ) : Option ℚ :=
  let s := sortQ xs
  if xs.length = 0 then none
  else if xs.length % 2 = 1 then some (s.getD (xs.length / 2) 0)
  else some ((s.getD (xs.length / 2 - 1) 0 + s.getD (xs.length / 2) 0) / 2)

/-- Sample variance (`ddof = 1`), junk on fewer than 2 values (callers
guard, mirroring the NaN that pandas produces there). -/
def varQ (xs : List ℚ) : ℚ :=
  ((xs.map (fun x => (x - meanQ xs) ^ 2)).sum) / ((xs.length : ℚ) - 1)

/-- `series.std()`: square root of the sample variance. -/
noncomputable def stdR (xs : List ℚ) : ℝ :=
  Real.sqrt ((varQ xs : ℚ) : ℝ)

/-! ## Feature synthesizer (`create_forecast_features`) -/

/-- One conditional lag-column assignment:
`if src in df.columns: df[base + str(k)] = df[src].shift(k)`. -/
def lagStep (df : DF) (src base : String) (k : ℕ) : DF :=
  if hasCol df src then setCol df (base ++ toString k) (shiftDown k (getD df src)) else df

/-- One iteration of the lag loop: readiness, sleep, activity in source
order. -/
def addLags (df : DF) (k : ℕ) : DF :=
  lagStep (lagStep (lagStep df "readiness_score" "readiness_lag" k)
    "sleep_score" "sleep_lag" k) "activity_score" "activity_lag" k

/-- One conditional rolling-mean assignment:
`if src in df.columns: df[base + str(w)] = df[src].rolling(w).mean()`. -/
def rollStep (df : DF) (src base : String) (w : ℕ) : DF :=
  if hasCol df src then setCol df (base ++ toString w) (rollMean w (getD df src)) else df

/-- One iteration of the rolling loop: readiness then sleep (the source has
no activity rolling column). -/
def addRolls (df : DF) (w : ℕ) : DF :=
  rollStep (rollStep df "readiness_score" "readiness_roll" w) "sleep_score" "sleep_roll" w

/-- `df['target_readiness'] = df['readiness_score'].shift(-1)` guarded by
column presence. -/
def addTarget (df : DF) : DF :=
  if hasCol df "readiness_score" then
    setCol df "target_readiness" (shiftUp (getD df "readiness_score"))
  else df

/-- `create_forecast_features`: lag loop over `[1, 2, 3, 7]`, rolling loop
over `[3, 7]`, then the shifted target column. -/
def create_forecast_features (df : DF) : DF :=
  addTarget (List.foldl addRolls (List.foldl addLags df [1, 2, 3, 7]) [3, 7])

/-! ## Forecast trainer/evaluator (`forecast_readiness`) -/

/-- Membership test of `forecast_readiness`'s `feature_cols` list: not the
date, not the target, not the raw readiness source, and the name does not
start with `id` (`c.startswith('id')`, expressed on the character lists so
that it evaluates inside the kernel). -/
def isFeatureCol (nm : String) : Bool :=
  !(nm == "date") && !(nm == "target_readiness") && !(nm == "readiness_score")
    && !(List.isPrefixOf "id".data nm.data)

/-- Boolean-mask row selection on one column (pandas `df[mask]`). -/
def maskFilter {α : Type} (mask : List Bool) (xs : List α) : List α :=
  ((mask.zip xs).filter (fun p => p.1)).map Prod.snd

/-- Boolean-mask row selection on the whole frame:
`df_features = df_features[df_features['target_readiness'].notna()]`. -/
def filterRows (df : DF) (mask : List Bool) : DF :=
  ⟨maskFilter mask df.dates, df.cols.map (fun p => (p.1, maskFilter mask p.2))⟩

/-- `series.median()` of a raw column: NaNs dropped first; `none` when the
column has no value at all. -/
def colMedian (xs : Col) : Option ℚ :=
  medianQ (presentVals xs)

/-- `series.fillna(v)`; when `v` is itself NaN (`none`) the NaNs stay. -/
def fillna (xs : Col) (v : Option ℚ) : Col :=
  xs.map (fun o => match o with | some a => some a | none => v)

/-- One pass of the median-imputation loop on a single named column:
`if df[col].isna().any(): df[col] = df[col].fillna(df[col].median())`,
restricted to the feature columns the loop ranges over. -/
def fillOne (nm : String) (c : Col) : Col :=
  if isFeatureCol nm && c.any Option.isNone then fillna c (colMedian c) else c

/-- The median-imputation loop: every feature column with at least one NaN
is filled with its own median over the whole retained frame. -/
def fillCols (df : DF) : DF :=
  ⟨df.dates, df.cols.map (fun p => (p.1, fillOne p.1 p.2))⟩

/-- The feature frame after dropping every row whose target is NaN
(line `df_features = df_features[df_features['target_readiness'].notna()]`). -/
def retainedD (df : DF) : DF :=
  filterRows (create_forecast_features df)
    ((getD (create_forecast_features df) "target_readiness").map Option.isSome)

/-- The retained frame after median imputation of the feature columns. -/
def filledD (df : DF) : DF :=
  fillCols (retainedD df)

/-- Feature selection `X = df_features[feature_cols]` (every remaining
column is numeric, so `select_dtypes` keeps all of them); the dates are kept
as the row index. -/
def selectX (df : DF) : DF :=
  ⟨df.dates, df.cols.filter (fun p => isFeatureCol p.1)⟩

/-- First `n` rows of a frame. -/
def takeRows (n : ℕ) (df : DF) : DF :=
  ⟨df.dates.take n, df.cols.map (fun p => (p.1, p.2.take n))⟩

/-- All but the first `n` rows of a frame. -/
def dropRows (n : ℕ) (df : DF) : DF :=
  ⟨df.dates.drop n, df.cols.map (fun p => (p.1, p.2.drop n))⟩

/-- Row count (`len(df)`). -/
def nRows (df : DF) : ℕ :=
  df.dates.length

/-- scikit-learn `train_test_split` with `test_size=0.2` puts
`ceil(n / 5)` samples in the evaluation part. -/
def nTest (n : ℕ) : ℕ :=
  (n + 4) / 5

/-- Size of the training part of the chronological split. -/
def nTrain (n : ℕ) : ℕ :=
  n - nTest n

/-- Training feature partition: the first 80% of rows, in order. -/
def trainX (df : DF) : DF :=
  takeRows (nTrain (nRows (filledD df))) (selectX (filledD df))

/-- Evaluation feature partition: the last 20% of rows, in order. -/
def testX (df : DF) : DF :=
  dropRows (nTrain (nRows (filledD df))) (selectX (filledD df))

/-- Training target partition. -/
def trainY (df : DF) : Col :=
  (getD (filledD df) "target_readiness").take (nTrain (nRows (filledD df)))

/-- Evaluation target partition. -/
def testY (df : DF) : Col :=
  (getD (filledD df) "target_readiness").drop (nTrain (nRows (filledD df)))

/-- Result of `forecast_readiness` up to the train/test split.  `noTarget`
is the `KeyError` raised when `target_readiness` was never created;
`insufficient` is the `len == 0` early return ("No data after feature
engineering"); `splitError` is the `ValueError` that `train_test_split`
raises when one of the partitions would be empty; `trained` records the
partitions handed to the scaler and the regressor (the fit itself is an
opaque external library call). -/
inductive Outcome where
  | noTarget
  | insufficient
  | splitError
  | trained (Xtr Xte : DF) (ytr yte : Col)
deriving DecidableEq

/-- `forecast_readiness`: build features, drop NaN-target rows, median-fill
feature columns, bail out on an empty frame, then split chronologically
(`shuffle=False`). -/
def forecast_readiness (df : DF) : Outcome :=
  match getCol? (create_forecast_features df) "target_readiness" with
  | none => .noTarget
  | some _ =>
    if nRows (filledD df) = 0 then .insufficient
    else if nTrain (nRows (filledD df)) = 0 then .splitError
    else .trained (trainX df) (testX df) (trainY df) (testY df)

/-! ## Anomaly detector (`detect_anomalies`) -/

/-- The (date, readiness) rows the detector filters. -/
def rowsR (df : DF) : List (ℤ × Option ℚ) :=
  df.dates.zip (getD df "readiness_score")

/-- The anomaly condition on one row value, given the dropna'd series `vs`:
`value < mean - 2*std or value > mean + 2*std`.  A NaN value is never
anomalous, and when `vs` has fewer than 2 elements both thresholds are NaN
(pandas `std`), so every float comparison is false — hence the
`2 ≤ vs.length` guard. -/
noncomputable def anomCond (vs : List ℚ) (o : Option ℚ) : Prop :=
  match o with
  | none => False
  | some v =>
      2 ≤ vs.length ∧
        ((v : ℝ) < (meanQ vs : ℝ) - 2 * stdR vs ∨ (v : ℝ) > (meanQ vs : ℝ) + 2 * stdR vs)

open Classical in
/-- `detect_anomalies`: `none` models the early `return None` when the
readiness column is missing; otherwise the rows more than two standard
deviations from the mean. -/
noncomputable def detect_anomalies (df : DF) : Option (List (ℤ × Option ℚ)) :=
  if hasCol df "readiness_score" then
    some ((rowsR df).filter
      (fun p => decide (anomCond (presentVals (getD df "readiness_score")) p.2)))
  else none

/-! ## Baseline estimator (`calculate_personal_baselines`) -/

/-- One metric's baseline entry `{mean, median, std}`; `none` models the
NaN these pandas aggregations return on empty / too-short data. -/
structure Stats where
  mean : Option ℚ
  median : Option ℚ
  std : Option ℝ

/-- The `{mean, median, std}` dict built for one present column. -/
noncomputable def statsOf (xs : Col) : Stats :=
  { mean := if (presentVals xs).length = 0 then none else some (meanQ (presentVals xs))
  , median := medianQ (presentVals xs)
  , std := if (presentVals xs).length < 2 then none else some (stdR (presentVals xs)) }

/-- `calculate_personal_baselines`: one entry per score column present in
the frame, in source order readiness, sleep, activity. -/
noncomputable def calculate_personal_baselines (df : DF) : List (String × Stats) :=
  (if hasCol df "readiness_score" then
    [("readiness", statsOf (getD df "readiness_score"))] else [])
  ++ (if hasCol df "sleep_score" then
    [("sleep", statsOf (getD df "sleep_score"))] else [])
  ++ (if hasCol df "activity_score" then
    [("activity", statsOf (getD df "activity_score"))] else [])

/-! ## Concrete sample frames used to instantiate the theorems -/

/-- Two daily rows with readiness only: after target filtering exactly one
row remains. -/
def sampleTwo : DF :=
  ⟨[0, 1], [("readiness_score", [some 70, some 72])]⟩

/-- Five daily rows with readiness only: too short for any lag-7 value. -/
def sampleFive : DF :=
  ⟨[0, 1, 2, 3, 4], [("readiness_score", [some 70, some 71, some 72, some 73, some 74])]⟩

/-- Ten daily rows with all three score columns present. -/
def sampleTen : DF :=
  ⟨[0, 1, 2, 3, 4, 5, 6, 7, 8, 9],
    [("readiness_score",
      [some 70, some 72, some 74, some 76, some 78, some 80, some 82, some 84, some 86, some 88]),
     ("sleep_score",
      [some 60, some 61, some 62, some 63, some 64, some 65, some 66, some 67, some 68, some 69]),
     ("activity_score",
      [some 50, some 51, some 52, some 53, some 54, some 55, some 56, some 57, some 58, some 59])]⟩

/-- Ten daily rows with a constant readiness score of 70. -/
def sampleConst : DF :=
  ⟨[0, 1, 2, 3, 4, 5, 6, 7, 8, 9],
    [("readiness_score", List.replicate 10 (some 70))]⟩

/-- Eight daily rows with one readiness spike at 150. -/
def sampleSpike : DF :=
  ⟨[0, 1, 2, 3, 4, 5, 6, 7],
    [("readiness_score",
      [some 70, some 72, some 71, some 69, some 150, some 70, some 71, some 69])]⟩

/-- One row whose readiness column exists but holds no value at all. -/
def sampleNaN : DF :=
  ⟨[0], [("readiness_score", [none])]⟩

/-- The lag-1 readiness column of `sampleTen` after target filtering. -/
def sampleTenLag1 : Col :=
  [none, some 70, some 72, some 74, some 76, some 78, some 80, some 82, some 84]

/-- A single daily row: after target filtering zero rows remain. -/
def sampleOne : DF :=
  ⟨[0], [("readiness_score", [some 70])]⟩

/-! ## Frame-operation lemmas -/

theorem dates_setCol (df : DF) (nm : String) (v : Col) :
    (setCol df nm v).dates = df.dates := by
  unfold setCol
  split <;> rfl

theorem find?_replace_self (nm : String) (v : Col) (l : List (String × Col))
    (h : l.any (fun p => p.1 == nm) = true) :
    (l.map (fun p => if p.1 == nm then (nm, v) else p)).find? (fun p => p.1 == nm)
      = some (nm, v) := by
  induction l with
  | nil => simp at h
  | cons p t ih =>
    rw [List.map_cons]
    by_cases hp : (p.1 == nm) = true
    · rw [if_pos hp]
      exact List.find?_cons_of_pos _ (by simp)
    · have hb : (p.1 == nm) = false := by simpa using hp
      rw [if_neg (by simp [hb]), List.find?_cons_of_neg _ (by simp [hb])]
      simp only [List.any_cons, hb, Bool.false_or] at h
      exact ih h

theorem find?_replace_ne (nm nm' : String) (v : Col) (l : List (String × Col))
    (h : (nm' == nm) = false) :
    (l.map (fun p => if p.1 == nm then (nm, v) else p)).find? (fun p => p.1 == nm')
      = l.find? (fun p => p.1 == nm') := by
  have hne : nm ≠ nm' := fun he => by simp [he] at h
  induction l with
  | nil => rfl
  | cons p t ih =>
    rw [List.map_cons]
    by_cases hp : (p.1 == nm) = true
    · have hpe : p.1 = nm := by simpa using hp
      rw [if_pos hp, List.find?_cons_of_neg _ (by simp [hne]),
        List.find?_cons_of_neg _ (by simp [hpe, hne])]
      exact ih
    · have hb : (p.1 == nm) = false := by simpa using hp
      rw [if_neg (by simp [hb])]
      by_cases hq : (p.1 == nm') = true
      · rw [List.find?_cons_of_pos (p := fun q : String × Col => q.1 == nm') _ hq,
          List.find?_cons_of_pos (p := fun q : String × Col => q.1 == nm') _ hq]
      · rw [List.find?_cons_of_neg (p := fun q : String × Col => q.1 == nm') _ (by simpa using hq),
          List.find?_cons_of_neg (p := fun q : String × Col => q.1 == nm') _ (by simpa using hq)]
        exact ih

theorem getCol?_setCol_self (df : DF) (nm : String) (v : Col) :
    getCol? (setCol df nm v) nm = some v := by
  unfold getCol? setCol
  split
  · rename_i h
    rw [find?_replace_self nm v df.cols h]
    rfl
  · rename_i h
    have hn : df.cols.find? (fun p => p.1 == nm) = none := by
      rw [List.find?_eq_none]
      intro x hx hpx
      exact h (List.any_eq_true.mpr ⟨x, hx, hpx⟩)
    simp [List.find?_append, hn]

theorem getCol?_setCol_ne (df : DF) (nm nm' : String) (v : Col)
    (h : (nm' == nm) = false) :
    getCol? (setCol df nm v) nm' = getCol? df nm' := by
  unfold getCol? setCol
  split
  · rw [find?_replace_ne nm nm' v df.cols h]
  · have hne : ¬nm = nm' := fun he => by simp [he] at h
    simp [List.find?_append, h, hne]

theorem hasCol_setCol_ne (df : DF) (nm nm' : String) (v : Col)
    (h : (nm' == nm) = false) :
    hasCol (setCol df nm v) nm' = hasCol df nm' := by
  unfold hasCol setCol
  split
  · simp only [List.any_map]
    congr 1
    funext p
    by_cases hp : (p.1 == nm) = true
    · have hpe : p.1 = nm := by simpa using hp
      have : (nm == nm') = false := by
        have : nm' ≠ nm := by simpa using h
        simpa using (Ne.symm this)
      simp [Function.comp, hp, this, hpe]
    · have hb : (p.1 == nm) = false := by simpa using hp
      simp [Function.comp, hb]
  · have hne : ¬nm = nm' := fun he => by simp [he] at h
    simp [h, hne]

theorem getD_setCol_ne (df : DF) (nm nm' : String) (v : Col)
    (h : (nm' == nm) = false) :
    getD (setCol df nm v) nm' = getD df nm' := by
  unfold getD
  rw [getCol?_setCol_ne df nm nm' v h]

/-! Preservation through the conditional feature-assignment steps. -/

theorem dates_lagStep (df : DF) (src base : String) (k : ℕ) :
    (lagStep df src base k).dates = df.dates := by
  unfold lagStep
  split <;> simp [dates_setCol]

theorem getCol?_lagStep_ne (df : DF) (src base : String) (k : ℕ) (nm : String)
    (h : (nm == base ++ toString k) = false) :
    getCol? (lagStep df src base k) nm = getCol? df nm := by
  unfold lagStep
  split
  · exact getCol?_setCol_ne _ _ _ _ h
  · rfl

theorem hasCol_lagStep_ne (df : DF) (src base : String) (k : ℕ) (nm : String)
    (h : (nm == base ++ toString k) = false) :
    hasCol (lagStep df src base k) nm = hasCol df nm := by
  unfold lagStep
  split
  · exact hasCol_setCol_ne _ _ _ _ h
  · rfl

theorem dates_rollStep (df : DF) (src base : String) (w : ℕ) :
    (rollStep df src base w).dates = df.dates := by
  unfold rollStep
  split <;> simp [dates_setCol]

theorem getCol?_rollStep_ne (df : DF) (src base : String) (w : ℕ) (nm : String)
    (h : (nm == base ++ toString w) = false) :
    getCol? (rollStep df src base w) nm = getCol? df nm := by
  unfold rollStep
  split
  · exact getCol?_setCol_ne _ _ _ _ h
  · rfl

theorem hasCol_rollStep_ne (df : DF) (src base : String) (w : ℕ) (nm : String)
    (h : (nm == base ++ toString w) = false) :
    hasCol (rollStep df src base w) nm = hasCol df nm := by
  unfold rollStep
  split
  · exact hasCol_setCol_ne _ _ _ _ h
  · rfl

theorem dates_addTarget (df : DF) : (addTarget df).dates = df.dates := by
  unfold addTarget
  split <;> simp [dates_setCol]

theorem getCol?_addTarget_ne (df : DF) (nm : String)
    (h : (nm == "target_readiness") = false) :
    getCol? (addTarget df) nm = getCol? df nm := by
  unfold addTarget
  split
  · exact getCol?_setCol_ne _ _ _ _ h
  · rfl

theorem getD_lagStep_ne (df : DF) (src base : String) (k : ℕ) (nm : String)
    (h : (nm == base ++ toString k) = false) :
    getD (lagStep df src base k) nm = getD df nm := by
  unfold getD
  rw [getCol?_lagStep_ne _ _ _ _ _ h]

theorem getD_rollStep_ne (df : DF) (src base : String) (w : ℕ) (nm : String)
    (h : (nm == base ++ toString w) = false) :
    getD (rollStep df src base w) nm = getD df nm := by
  unfold getD
  rw [getCol?_rollStep_ne _ _ _ _ _ h]

/-! Combined preservation through one lag-loop iteration and one
rolling-loop iteration. -/

theorem getCol?_addLags_ne (df : DF) (k : ℕ) (nm : String)
    (h1 : (nm == "readiness_lag" ++ toString k) = false)
    (h2 : (nm == "sleep_lag" ++ toString k) = false)
    (h3 : (nm == "activity_lag" ++ toString k) = false) :
    getCol? (addLags df k) nm = getCol? df nm := by
  unfold addLags
  rw [getCol?_lagStep_ne _ _ _ _ _ h3, getCol?_lagStep_ne _ _ _ _ _ h2,
    getCol?_lagStep_ne _ _ _ _ _ h1]

theorem hasCol_addLags_ne (df : DF) (k : ℕ) (nm : String)
    (h1 : (nm == "readiness_lag" ++ toString k) = false)
    (h2 : (nm == "sleep_lag" ++ toString k) = false)
    (h3 : (nm == "activity_lag" ++ toString k) = false) :
    hasCol (addLags df k) nm = hasCol df nm := by
  unfold addLags
  rw [hasCol_lagStep_ne _ _ _ _ _ h3, hasCol_lagStep_ne _ _ _ _ _ h2,
    hasCol_lagStep_ne _ _ _ _ _ h1]

theorem getD_addLags_ne (df : DF) (k : ℕ) (nm : String)
    (h1 : (nm == "readiness_lag" ++ toString k) = false)
    (h2 : (nm == "sleep_lag" ++ toString k) = false)
    (h3 : (nm == "activity_lag" ++ toString k) = false) :
    getD (addLags df k) nm = getD df nm := by
  unfold getD
  rw [getCol?_addLags_ne _ _ _ h1 h2 h3]

theorem getCol?_addRolls_ne (df : DF) (w : ℕ) (nm : String)
    (h1 : (nm == "readiness_roll" ++ toString w) = false)
    (h2 : (nm == "sleep_roll" ++ toString w) = false) :
    getCol? (addRolls df w) nm = getCol? df nm := by
  unfold addRolls
  rw [getCol?_rollStep_ne _ _ _ _ _ h2, getCol?_rollStep_ne _ _ _ _ _ h1]

theorem hasCol_addRolls_ne (df : DF) (w : ℕ) (nm : String)
    (h1 : (nm == "readiness_roll" ++ toString w) = false)
    (h2 : (nm == "sleep_roll" ++ toString w) = false) :
    hasCol (addRolls df w) nm = hasCol df nm := by
  unfold addRolls
  rw [hasCol_rollStep_ne _ _ _ _ _ h2, hasCol_rollStep_ne _ _ _ _ _ h1]

theorem getD_addRolls_ne (df : DF) (w : ℕ) (nm : String)
    (h1 : (nm == "readiness_roll" ++ toString w) = false)
    (h2 : (nm == "sleep_roll" ++ toString w) = false) :
    getD (addRolls df w) nm = getD df nm := by
  unfold getD
  rw [getCol?_addRolls_ne _ _ _ h1 h2]

theorem dates_addLags (df : DF) (k : ℕ) : (addLags df k).dates = df.dates := by
  unfold addLags
  rw [dates_lagStep, dates_lagStep, dates_lagStep]

theorem dates_addRolls (df : DF) (w : ℕ) : (addRolls df w).dates = df.dates := by
  unfold addRolls
  rw [dates_rollStep, dates_rollStep]

theorem dates_cff (df : DF) : (create_forecast_features df).dates = df.dates := by
  unfold create_forecast_features
  simp only [List.foldl_cons, List.foldl_nil]
  rw [dates_addTarget, dates_addRolls, dates_addRolls, dates_addLags, dates_addLags,
    dates_addLags, dates_addLags]

/-! Characterisation of the column each conditional step defines. -/

theorem getCol?_lagStep_self (d : DF) (src base : String) (k : ℕ) (h : hasCol d src = true) :
    getCol? (lagStep d src base k) (base ++ toString k) = some (shiftDown k (getD d src)) := by
  unfold lagStep
  rw [if_pos h, getCol?_setCol_self]

theorem getCol?_rollStep_self (d : DF) (src base : String) (w : ℕ) (h : hasCol d src = true) :
    getCol? (rollStep d src base w) (base ++ toString w) = some (rollMean w (getD d src)) := by
  unfold rollStep
  rw [if_pos h, getCol?_setCol_self]

theorem getCol?_addTarget_self (d : DF) (h : hasCol d "readiness_score" = true) :
    getCol? (addTarget d) "target_readiness" = some (shiftUp (getD d "readiness_score")) := by
  unfold addTarget
  rw [if_pos h, getCol?_setCol_self]

theorem getCol?_addLags_readiness (d : DF) (k : ℕ) (h : hasCol d "readiness_score" = true)
    (hS : ("readiness_lag" ++ toString k == "sleep_lag" ++ toString k) = false)
    (hA : ("readiness_lag" ++ toString k == "activity_lag" ++ toString k) = false) :
    getCol? (addLags d k) ("readiness_lag" ++ toString k)
      = some (shiftDown k (getD d "readiness_score")) := by
  unfold addLags
  rw [getCol?_lagStep_ne _ _ _ _ _ hA, getCol?_lagStep_ne _ _ _ _ _ hS,
    getCol?_lagStep_self _ _ _ _ h]

theorem getCol?_addLags_sleep (d : DF) (k : ℕ) (h : hasCol d "sleep_score" = true)
    (hA : ("sleep_lag" ++ toString k == "activity_lag" ++ toString k) = false)
    (hR : ("sleep_score" == "readiness_lag" ++ toString k) = false) :
    getCol? (addLags d k) ("sleep_lag" ++ toString k)
      = some (shiftDown k (getD d "sleep_score")) := by
  unfold addLags
  rw [getCol?_lagStep_ne _ _ _ _ _ hA,
    getCol?_lagStep_self _ _ _ _ (by rw [hasCol_lagStep_ne _ _ _ _ _ hR]; exact h),
    getD_lagStep_ne _ _ _ _ _ hR]

theorem getCol?_addLags_activity (d : DF) (k : ℕ) (h : hasCol d "activity_score" = true)
    (hR : ("activity_score" == "readiness_lag" ++ toString k) = false)
    (hS : ("activity_score" == "sleep_lag" ++ toString k) = false) :
    getCol? (addLags d k) ("activity_lag" ++ toString k)
      = some (shiftDown k (getD d "activity_score")) := by
  unfold addLags
  rw [getCol?_lagStep_self _ _ _ _
      (by rw [hasCol_lagStep_ne _ _ _ _ _ hS, hasCol_lagStep_ne _ _ _ _ _ hR]; exact h),
    getD_lagStep_ne _ _ _ _ _ hS, getD_lagStep_ne _ _ _ _ _ hR]

theorem getCol?_addRolls_readiness (d : DF) (w : ℕ) (h : hasCol d "readiness_score" = true)
    (hS : ("readiness_roll" ++ toString w == "sleep_roll" ++ toString w) = false) :
    getCol? (addRolls d w) ("readiness_roll" ++ toString w)
      = some (rollMean w (getD d "readiness_score")) := by
  unfold addRolls
  rw [getCol?_rollStep_ne _ _ _ _ _ hS, getCol?_rollStep_self _ _ _ _ h]

theorem getCol?_addRolls_sleep (d : DF) (w : ℕ) (h : hasCol d "sleep_score" = true)
    (hR : ("sleep_score" == "readiness_roll" ++ toString w) = false) :
    getCol? (addRolls d w) ("sleep_roll" ++ toString w)
      = some (rollMean w (getD d "sleep_score")) := by
  unfold addRolls
  rw [getCol?_rollStep_self _ _ _ _ (by rw [hasCol_rollStep_ne _ _ _ _ _ hR]; exact h),
    getD_rollStep_ne _ _ _ _ _ hR]

/-- The target column of the feature frame is exactly the readiness series
shifted one row up. -/
theorem cff_target (df : DF) (h : hasCol df "readiness_score" = true) :
    getCol? (create_forecast_features df) "target_readiness"
      = some (shiftUp (getD df "readiness_score")) := by
  unfold create_forecast_features
  simp only [List.foldl_cons, List.foldl_nil]
  rw [getCol?_addTarget_self _ (by
      rw [hasCol_addRolls_ne _ _ _ (by decide) (by decide),
        hasCol_addRolls_ne _ _ _ (by decide) (by decide),
        hasCol_addLags_ne _ _ _ (by decide) (by decide) (by decide),
        hasCol_addLags_ne _ _ _ (by decide) (by decide) (by decide),
        hasCol_addLags_ne _ _ _ (by decide) (by decide) (by decide),
        hasCol_addLags_ne _ _ _ (by decide) (by decide) (by decide)]
      exact h),
    getD_addRolls_ne _ _ _ (by decide) (by decide),
    getD_addRolls_ne _ _ _ (by decide) (by decide),
    getD_addLags_ne _ _ _ (by decide) (by decide) (by decide),
    getD_addLags_ne _ _ _ (by decide) (by decide) (by decide),
    getD_addLags_ne _ _ _ (by decide) (by decide) (by decide),
    getD_addLags_ne _ _ _ (by decide) (by decide) (by decide)]

/-! ## Pointwise characterisation of the shift and rolling operations -/

theorem shiftDown_length (k : ℕ) (xs : Col) : (shiftDown k xs).length = xs.length := by
  unfold shiftDown
  simp only [List.length_append, List.length_replicate, List.length_take]
  omega

theorem shiftDown_getD (k : ℕ) (xs : Col) (i : ℕ) (h : i < xs.length) :
    (shiftDown k xs).getD i none = if k ≤ i then xs.getD (i - k) none else none := by
  unfold shiftDown
  by_cases hk : k ≤ i
  · have hmin : min k xs.length = k := by omega
    rw [if_pos hk, hmin, List.getD_append_right _ _ _ _ (by simp; omega)]
    rw [List.length_replicate, List.getD_eq_getElem _ _ (by simp [List.length_take]; omega),
      List.getElem_take, List.getD_eq_getElem _ _ (by omega)]
  · rw [if_neg hk, List.getD_append _ _ _ _ (by simp [List.length_replicate]; omega),
      List.getD_eq_getElem _ _ (by simp [List.length_replicate]; omega)]
    simp

theorem shiftUp_length (xs : Col) : (shiftUp xs).length = xs.length := by
  cases xs <;> simp [shiftUp]

theorem shiftUp_getD (xs : Col) (i : ℕ) (h : i + 1 < xs.length) :
    (shiftUp xs).getD i none = xs.getD (i + 1) none := by
  cases xs with
  | nil => simp at h
  | cons x t =>
    show (t ++ [none]).getD i none = (x :: t).getD (i + 1) none
    rw [List.getD_append _ _ _ _ (by simp at h ⊢; omega), List.getD_cons_succ]

theorem shiftUp_getD_last (xs : Col) (h : xs ≠ []) :
    (shiftUp xs).getD (xs.length - 1) none = none := by
  cases xs with
  | nil => exact absurd rfl h
  | cons x t =>
    show (t ++ [none]).getD ((x :: t).length - 1) none = none
    have : (x :: t).length - 1 = t.length := by simp
    rw [this, List.getD_append_right _ _ _ _ (by omega)]
    simp

theorem rollMean_length (w : ℕ) (xs : Col) : (rollMean w xs).length = xs.length := by
  simp [rollMean]

theorem rollMean_getD (w : ℕ) (xs : Col) (i : ℕ) (h : i < xs.length) :
    (rollMean w xs).getD i none =
      if w ≤ i + 1 ∧ (windowOf xs i w).all Option.isSome then
        some ((presentVals (windowOf xs i w)).sum / (w : ℚ))
      else none := by
  unfold rollMean
  rw [List.getD_eq_getElem _ _ (by simpa using h)]
  simp [h]

/-! ## Lookup through entry-wise frame transformations -/

theorem find?_mapEntries (g : String → Col → Col) (l : List (String × Col)) (nm : String) :
    ((l.map (fun p => (p.1, g p.1 p.2))).find? (fun p => p.1 == nm)).map Prod.snd
      = ((l.find? (fun p => p.1 == nm)).map Prod.snd).map (g nm) := by
  induction l with
  | nil => rfl
  | cons p t ih =>
    rw [List.map_cons]
    by_cases hp : (p.1 == nm) = true
    · have hpe : p.1 = nm := by simpa using hp
      rw [List.find?_cons_of_pos (p := fun q : String × Col => q.1 == nm)
          (a := (p.1, g p.1 p.2)) _ hp,
        List.find?_cons_of_pos (p := fun q : String × Col => q.1 == nm) (a := p) _ hp]
      simp [hpe]
    · rw [List.find?_cons_of_neg (p := fun q : String × Col => q.1 == nm)
          (a := (p.1, g p.1 p.2)) _ (by simpa using hp),
        List.find?_cons_of_neg (p := fun q : String × Col => q.1 == nm) (a := p) _
          (by simpa using hp)]
      exact ih

theorem getCol?_filterRows (df : DF) (mask : List Bool) (nm : String) :
    getCol? (filterRows df mask) nm = (getCol? df nm).map (maskFilter mask) := by
  unfold getCol? filterRows
  exact find?_mapEntries (fun _ c => maskFilter mask c) df.cols nm

theorem getCol?_fillCols (df : DF) (nm : String) :
    getCol? (fillCols df) nm = (getCol? df nm).map (fillOne nm) := by
  unfold getCol? fillCols
  exact find?_mapEntries fillOne df.cols nm

theorem getCol?_takeRows (n : ℕ) (df : DF) (nm : String) :
    getCol? (takeRows n df) nm = (getCol? df nm).map (List.take n) := by
  unfold getCol? takeRows
  exact find?_mapEntries (fun _ c => c.take n) df.cols nm

theorem getCol?_dropRows (n : ℕ) (df : DF) (nm : String) :
    getCol? (dropRows n df) nm = (getCol? df nm).map (List.drop n) := by
  unfold getCol? dropRows
  exact find?_mapEntries (fun _ c => c.drop n) df.cols nm

theorem getCol?_selectX (df : DF) (nm : String) :
    getCol? (selectX df) nm = if isFeatureCol nm then getCol? df nm else none := by
  unfold getCol? selectX
  show ((df.cols.filter (fun p => isFeatureCol p.1)).find? (fun p => p.1 == nm)).map Prod.snd
    = if isFeatureCol nm then (df.cols.find? (fun p => p.1 == nm)).map Prod.snd else none
  induction df.cols with
  | nil => by_cases hf : isFeatureCol nm = true <;> simp [hf]
  | cons p t ih =>
    by_cases hp : (p.1 == nm) = true
    · have hpe : p.1 = nm := by simpa using hp
      by_cases hf : isFeatureCol nm = true
      · rw [List.filter_cons_of_pos (p := fun q : String × Col => isFeatureCol q.1) (a := p)
          (by simpa [hpe] using hf)]
        rw [List.find?_cons_of_pos (p := fun q : String × Col => q.1 == nm) (a := p) _ hp,
          List.find?_cons_of_pos (p := fun q : String × Col => q.1 == nm) (a := p) _ hp]
        simp [hf]
      · have hfb : isFeatureCol nm = false := by simpa using hf
        rw [List.filter_cons_of_neg (p := fun q : String × Col => isFeatureCol q.1) (a := p)
          (by simpa [hpe] using hf), ih]
        simp [hfb]
    · by_cases hc : isFeatureCol p.1 = true
      · rw [List.filter_cons_of_pos (p := fun q : String × Col => isFeatureCol q.1) (a := p) hc,
          List.find?_cons_of_neg (p := fun q : String × Col => q.1 == nm) (a := p) _
            (by simpa using hp),
          List.find?_cons_of_neg (p := fun q : String × Col => q.1 == nm) (a := p) _
            (by simpa using hp)]
        exact ih
      · rw [List.filter_cons_of_neg (p := fun q : String × Col => isFeatureCol q.1) (a := p)
          (by simpa using hc), ih,
          List.find?_cons_of_neg (p := fun q : String × Col => q.1 == nm) (a := p) _
            (by simpa using hp)]

/-! ## Mask-filtering lemmas -/

theorem maskFilter_nil_mask {α : Type} (xs : List α) : maskFilter [] xs = [] := rfl

theorem maskFilter_cons {α : Type} (b : Bool) (bm : List Bool) (x : α) (xt : List α) :
    maskFilter (b :: bm) (x :: xt) = if b then x :: maskFilter bm xt else maskFilter bm xt := by
  unfold maskFilter
  cases b <;> simp

theorem maskFilter_sublist {α : Type} (mask : List Bool) (xs : List α) :
    (maskFilter mask xs).Sublist xs := by
  induction xs generalizing mask with
  | nil =>
    cases mask with
    | nil => exact List.Sublist.refl _
    | cons b bm => simp [maskFilter]
  | cons x xt ih =>
    cases mask with
    | nil => simp [maskFilter_nil_mask]
    | cons b bm =>
      rw [maskFilter_cons]
      cases b with
      | true => simpa using List.Sublist.cons₂ x (ih bm)
      | false => simpa using List.Sublist.cons x (ih bm)

theorem maskFilter_append_false {α : Type} (m : List Bool) (xs : List α)
    (hlen : m.length + 1 = xs.length) :
    (maskFilter (m ++ [false]) xs).Sublist xs.dropLast := by
  induction m generalizing xs with
  | nil =>
    cases xs with
    | nil => simp at hlen
    | cons x xt =>
      cases xt with
      | nil => simp [maskFilter_cons, maskFilter_nil_mask]
      | cons y yt => simp at hlen
  | cons b bm ih =>
    cases xs with
    | nil => simp at hlen
    | cons x xt =>
      have hxt : xt ≠ [] := by
        intro he
        rw [he] at hlen
        simp at hlen
      rw [List.cons_append, maskFilter_cons, List.dropLast_cons_of_ne_nil hxt]
      have hlen' : bm.length + 1 = xt.length := by simpa using hlen
      cases b with
      | true => simpa using List.Sublist.cons₂ x (ih xt hlen')
      | false => simpa using List.Sublist.cons x (ih xt hlen')

theorem fillna_length (xs : Col) (v : Option ℚ) : (fillna xs v).length = xs.length := by
  simp [fillna]

theorem fillna_getD (xs : Col) (v : Option ℚ) (i : ℕ) (h : i < xs.length) :
    (fillna xs v).getD i none = match xs.getD i none with
      | some a => some a
      | none => v := by
  unfold fillna
  rw [List.getD_eq_getElem _ _ (by simpa using h), List.getElem_map,
    List.getD_eq_getElem _ _ h]

theorem fillna_none (xs : Col) : fillna xs none = xs := by
  unfold fillna
  induction xs with
  | nil => rfl
  | cons o t ih =>
    rw [List.map_cons, ih]
    cases o <;> rfl

theorem dates_filterRows (df : DF) (mask : List Bool) :
    (filterRows df mask).dates = maskFilter mask df.dates := rfl

theorem retainedD_dates (df : DF) :
    (retainedD df).dates
      = maskFilter ((getD (create_forecast_features df) "target_readiness").map Option.isSome)
        (create_forecast_features df).dates := by
  unfold retainedD
  rw [dates_filterRows]

theorem dates_takeRows (n : ℕ) (df : DF) : (takeRows n df).dates = df.dates.take n := rfl

theorem dates_dropRows (n : ℕ) (df : DF) : (dropRows n df).dates = df.dates.drop n := rfl

theorem dates_selectX (df : DF) : (selectX df).dates = df.dates := rfl

theorem dates_fillCols (df : DF) : (fillCols df).dates = df.dates := rfl

theorem filledD_dates (df : DF) : (filledD df).dates = (retainedD df).dates := by
  unfold filledD
  rw [dates_fillCols]

theorem trainX_dates (df : DF) :
    (trainX df).dates = (filledD df).dates.take (nTrain (nRows (filledD df))) := by
  unfold trainX
  rw [dates_takeRows, dates_selectX]

theorem testX_dates (df : DF) :
    (testX df).dates = (filledD df).dates.drop (nTrain (nRows (filledD df))) := by
  unfold testX
  rw [dates_dropRows, dates_selectX]

/-- In a well-formed frame every present column spans all the dates. -/
theorem WF_getD_length (df : DF) (nm : String) (hw : WF df = true)
    (hc : hasCol df nm = true) :
    (getD df nm).length = df.dates.length := by
  unfold hasCol at hc
  obtain ⟨p, hp⟩ : ∃ p, df.cols.find? (fun q => q.1 == nm) = some p := by
    have : (df.cols.find? (fun q => q.1 == nm)).isSome := by
      rw [List.find?_isSome]
      obtain ⟨x, hx, hpx⟩ := List.any_eq_true.mp hc
      exact ⟨x, hx, hpx⟩
    exact Option.isSome_iff_exists.mp this
  have hmem : p ∈ df.cols := List.mem_of_find?_eq_some hp
  have hlen := List.all_eq_true.mp hw p hmem
  unfold getD getCol?
  rw [hp]
  simpa using hlen

/-! ## Constant-series statistics -/

theorem meanQ_const (vs : List ℚ) (c : ℚ) (hne : vs ≠ []) (h : ∀ x ∈ vs, x = c) :
    meanQ vs = c := by
  unfold meanQ
  rw [List.sum_eq_card_nsmul vs c h, nsmul_eq_mul]
  have h0 : vs.length ≠ 0 := by
    simpa [List.length_eq_zero] using hne
  have hlen : (vs.length : ℚ) ≠ 0 := by
    exact_mod_cast h0
  field_simp

theorem varQ_const (vs : List ℚ) (c : ℚ) (hne : vs ≠ []) (h : ∀ x ∈ vs, x = c) :
    varQ vs = 0 := by
  unfold varQ
  have hzero : (vs.map fun x => (x - meanQ vs) ^ 2).sum = 0 := by
    apply List.sum_eq_zero
    intro y hy
    obtain ⟨x, hx, rfl⟩ := List.mem_map.mp hy
    rw [meanQ_const vs c hne h, h x hx]
    ring
  rw [hzero, zero_div]

/-- Field-level description of the `{mean, median, std}` dict: mean is the
sum of the present values over their count, std is the square root of the
(n-1)-normalised squared deviations, and mean/std degrade to NaN (`none`)
on empty input resp. fewer than 2 observations. -/
theorem statsOf_spec (xs : Col) :
    ((presentVals xs).length = 0 →
      (statsOf xs).mean = none ∧ (statsOf xs).median = none ∧ (statsOf xs).std = none) ∧
    (0 < (presentVals xs).length →
      (statsOf xs).mean
          = some ((presentVals xs).sum / ((presentVals xs).length : ℚ)) ∧
        (statsOf xs).median = medianQ (presentVals xs)) ∧
    (2 ≤ (presentVals xs).length →
      (statsOf xs).std = some (Real.sqrt ((((presentVals xs).map
        (fun x => (x - (presentVals xs).sum / ((presentVals xs).length : ℚ)) ^ 2)).sum
          / (((presentVals xs).length : ℚ) - 1) : ℚ)))) ∧
    ((presentVals xs).length < 2 → (statsOf xs).std = none) := by
  unfold statsOf
  refine ⟨fun h => ?_, fun h => ?_, fun h => ?_, fun h => ?_⟩
  · refine ⟨by rw [if_pos h], ?_, ?_⟩
    · show medianQ (presentVals xs) = none
      rw [List.length_eq_zero.mp h]
      rfl
    · show (if (presentVals xs).length < 2 then none else some (stdR (presentVals xs))) = none
      rw [if_pos (by omega)]
  · exact ⟨by rw [if_neg (by omega)]; rfl, rfl⟩
  · show (if (presentVals xs).length < 2 then none else some (stdR (presentVals xs))) = _
    rw [if_neg (by omega)]
    unfold stdR varQ meanQ
    rfl
  · exact if_pos h

/-! ## Claims -/

/-- C5: for every configured lag `k ∈ {1, 2, 3, 7}` and every sequence
position `i`, the lag feature column at position `i` equals the source
metric's value at row position `i - k` when `i - k ≥ 0` (in particular it is
absent when that source value is absent), and is absent when `i < k` —
prior to median fill. -/
theorem claim_C5_lag_features (df : DF) (k : ℕ) (hk : k ∈ ([1, 2, 3, 7] : List ℕ))
    (nmS nmL : String)
    (hm : (nmS, nmL) ∈ [("readiness_score", "readiness_lag"), ("sleep_score", "sleep_lag"),
      ("activity_score", "activity_lag")])
    (hc : hasCol df nmS = true) :
    ∃ c, getCol? (create_forecast_features df) (nmL ++ toString k) = some c ∧
      c.length = (getD df nmS).length ∧
      ∀ i, i < (getD df nmS).length →
        c.getD i none = if k ≤ i then (getD df nmS).getD (i - k) none else none := by
  simp only [List.mem_cons, List.not_mem_nil, or_false, Prod.mk.injEq] at hm hk
  rcases hm with ⟨rfl, rfl⟩ | ⟨rfl, rfl⟩ | ⟨rfl, rfl⟩ <;>
    rcases hk with rfl | rfl | rfl | rfl
  · refine ⟨shiftDown 1 (getD df "readiness_score"), ?_, shiftDown_length _ _,
      fun i hi => shiftDown_getD _ _ _ hi⟩
    unfold create_forecast_features
    simp only [List.foldl_cons, List.foldl_nil]
    rw [getCol?_addTarget_ne _ _ (by decide),
      getCol?_addRolls_ne _ _ _ (by decide) (by decide),
      getCol?_addRolls_ne _ _ _ (by decide) (by decide),
      getCol?_addLags_ne _ _ _ (by decide) (by decide) (by decide),
      getCol?_addLags_ne _ _ _ (by decide) (by decide) (by decide),
      getCol?_addLags_ne _ _ _ (by decide) (by decide) (by decide),
      getCol?_addLags_readiness _ _ hc (by decide) (by decide)]
  · refine ⟨shiftDown 2 (getD df "readiness_score"), ?_, shiftDown_length _ _,
      fun i hi => shiftDown_getD _ _ _ hi⟩
    unfold create_forecast_features
    simp only [List.foldl_cons, List.foldl_nil]
    rw [getCol?_addTarget_ne _ _ (by decide),
      getCol?_addRolls_ne _ _ _ (by decide) (by decide),
      getCol?_addRolls_ne _ _ _ (by decide) (by decide),
      getCol?_addLags_ne _ _ _ (by decide) (by decide) (by decide),
      getCol?_addLags_ne _ _ _ (by decide) (by decide) (by decide),
      getCol?_addLags_readiness _ _ (by
        rw [hasCol_addLags_ne _ _ _ (by decide) (by decide) (by decide)]
        exact hc) (by decide) (by decide),
      getD_addLags_ne _ _ _ (by decide) (by decide) (by decide)]
  · refine ⟨shiftDown 3 (getD df "readiness_score"), ?_, shiftDown_length _ _,
      fun i hi => shiftDown_getD _ _ _ hi⟩
    unfold create_forecast_features
    simp only [List.foldl_cons, List.foldl_nil]
    rw [getCol?_addTarget_ne _ _ (by decide),
      getCol?_addRolls_ne _ _ _ (by decide) (by decide),
      getCol?_addRolls_ne _ _ _ (by decide) (by decide),
      getCol?_addLags_ne _ _ _ (by decide) (by decide) (by decide),
      getCol?_addLags_readiness _ _ (by
        rw [hasCol_addLags_ne _ _ _ (by decide) (by decide) (by decide),
          hasCol_addLags_ne _ _ _ (by decide) (by decide) (by decide)]
        exact hc) (by decide) (by decide),
      getD_addLags_ne _ _ _ (by decide) (by decide) (by decide),
      getD_addLags_ne _ _ _ (by decide) (by decide) (by decide)]
  · refine ⟨shiftDown 7 (getD df "readiness_score"), ?_, shiftDown_length _ _,
      fun i hi => shiftDown_getD _ _ _ hi⟩
    unfold create_forecast_features
    simp only [List.foldl_cons, List.foldl_nil]
    rw [getCol?_addTarget_ne _ _ (by decide),
      getCol?_addRolls_ne _ _ _ (by decide) (by decide),
      getCol?_addRolls_ne _ _ _ (by decide) (by decide),
      getCol?_addLags_readiness _ _ (by
        rw [hasCol_addLags_ne _ _ _ (by decide) (by decide) (by decide),
          hasCol_addLags_ne _ _ _ (by decide) (by decide) (by decide),
          hasCol_addLags_ne _ _ _ (by decide) (by decide) (by decide)]
        exact hc) (by decide) (by decide),
      getD_addLags_ne _ _ _ (by decide) (by decide) (by decide),
      getD_addLags_ne _ _ _ (by decide) (by decide) (by decide),
      getD_addLags_ne _ _ _ (by decide) (by decide) (by decide)]
  · refine ⟨shiftDown 1 (getD df "sleep_score"), ?_, shiftDown_length _ _,
      fun i hi => shiftDown_getD _ _ _ hi⟩
    unfold create_forecast_features
    simp only [List.foldl_cons, List.foldl_nil]
    rw [getCol?_addTarget_ne _ _ (by decide),
      getCol?_addRolls_ne _ _ _ (by decide) (by decide),
      getCol?_addRolls_ne _ _ _ (by decide) (by decide),
      getCol?_addLags_ne _ _ _ (by decide) (by decide) (by decide),
      getCol?_addLags_ne _ _ _ (by decide) (by decide) (by decide),
      getCol?_addLags_ne _ _ _ (by decide) (by decide) (by decide),
      getCol?_addLags_sleep _ _ hc (by decide) (by decide)]
  · refine ⟨shiftDown 2 (getD df "sleep_score"), ?_, shiftDown_length _ _,
      fun i hi => shiftDown_getD _ _ _ hi⟩
    unfold create_forecast_features
    simp only [List.foldl_cons, List.foldl_nil]
    rw [getCol?_addTarget_ne _ _ (by decide),
      getCol?_addRolls_ne _ _ _ (by decide) (by decide),
      getCol?_addRolls_ne _ _ _ (by decide) (by decide),
      getCol?_addLags_ne _ _ _ (by decide) (by decide) (by decide),
      getCol?_addLags_ne _ _ _ (by decide) (by decide) (by decide),
      getCol?_addLags_sleep _ _ (by
        rw [hasCol_addLags_ne _ _ _ (by decide) (by decide) (by decide)]
        exact hc) (by decide) (by decide),
      getD_addLags_ne _ _ _ (by decide) (by decide) (by decide)]
  · refine ⟨shiftDown 3 (getD df "sleep_score"), ?_, shiftDown_length _ _,
      fun i hi => shiftDown_getD _ _ _ hi⟩
    unfold create_forecast_features
    simp only [List.foldl_cons, List.foldl_nil]
    rw [getCol?_addTarget_ne _ _ (by decide),
      getCol?_addRolls_ne _ _ _ (by decide) (by decide),
      getCol?_addRolls_ne _ _ _ (by decide) (by decide),
      getCol?_addLags_ne _ _ _ (by decide) (by decide) (by decide),
      getCol?_addLags_sleep _ _ (by
        rw [hasCol_addLags_ne _ _ _ (by decide) (by decide) (by decide),
          hasCol_addLags_ne _ _ _ (by decide) (by decide) (by decide)]
        exact hc) (by decide) (by decide),
      getD_addLags_ne _ _ _ (by decide) (by decide) (by decide),
      getD_addLags_ne _ _ _ (by decide) (by decide) (by decide)]
  · refine ⟨shiftDown 7 (getD df "sleep_score"), ?_, shiftDown_length _ _,
      fun i hi => shiftDown_getD _ _ _ hi⟩
    unfold create_forecast_features
    simp only [List.foldl_cons, List.foldl_nil]
    rw [getCol?_addTarget_ne _ _ (by decide),
      getCol?_addRolls_ne _ _ _ (by decide) (by decide),
      getCol?_addRolls_ne _ _ _ (by decide) (by decide),
      getCol?_addLags_sleep _ _ (by
        rw [hasCol_addLags_ne _ _ _ (by decide) (by decide) (by decide),
          hasCol_addLags_ne _ _ _ (by decide) (by decide) (by decide),
          hasCol_addLags_ne _ _ _ (by decide) (by decide) (by decide)]
        exact hc) (by decide) (by decide),
      getD_addLags_ne _ _ _ (by decide) (by decide) (by decide),
      getD_addLags_ne _ _ _ (by decide) (by decide) (by decide),
      getD_addLags_ne _ _ _ (by decide) (by decide) (by decide)]
  · refine ⟨shiftDown 1 (getD df "activity_score"), ?_, shiftDown_length _ _,
      fun i hi => shiftDown_getD _ _ _ hi⟩
    unfold create_forecast_features
    simp only [List.foldl_cons, List.foldl_nil]
    rw [getCol?_addTarget_ne _ _ (by decide),
      getCol?_addRolls_ne _ _ _ (by decide) (by decide),
      getCol?_addRolls_ne _ _ _ (by decide) (by decide),
      getCol?_addLags_ne _ _ _ (by decide) (by decide) (by decide),
      getCol?_addLags_ne _ _ _ (by decide) (by decide) (by decide),
      getCol?_addLags_ne _ _ _ (by decide) (by decide) (by decide),
      getCol?_addLags_activity _ _ hc (by decide) (by decide)]
  · refine ⟨shiftDown 2 (getD df "activity_score"), ?_, shiftDown_length _ _,
      fun i hi => shiftDown_getD _ _ _ hi⟩
    unfold create_forecast_features
    simp only [List.foldl_cons, List.foldl_nil]
    rw [getCol?_addTarget_ne _ _ (by decide),
      getCol?_addRolls_ne _ _ _ (by decide) (by decide),
      getCol?_addRolls_ne _ _ _ (by decide) (by decide),
      getCol?_addLags_ne _ _ _ (by decide) (by decide) (by decide),
      getCol?_addLags_ne _ _ _ (by decide) (by decide) (by decide),
      getCol?_addLags_activity _ _ (by
        rw [hasCol_addLags_ne _ _ _ (by decide) (by decide) (by decide)]
        exact hc) (by decide) (by decide),
      getD_addLags_ne _ _ _ (by decide) (by decide) (by decide)]
  · refine ⟨shiftDown 3 (getD df "activity_score"), ?_, shiftDown_length _ _,
      fun i hi => shiftDown_getD _ _ _ hi⟩
    unfold create_forecast_features
    simp only [List.foldl_cons, List.foldl_nil]
    rw [getCol?_addTarget_ne _ _ (by decide),
      getCol?_addRolls_ne _ _ _ (by decide) (by decide),
      getCol?_addRolls_ne _ _ _ (by decide) (by decide),
      getCol?_addLags_ne _ _ _ (by decide) (by decide) (by decide),
      getCol?_addLags_activity _ _ (by
        rw [hasCol_addLags_ne _ _ _ (by decide) (by decide) (by decide),
          hasCol_addLags_ne _ _ _ (by decide) (by decide) (by decide)]
        exact hc) (by decide) (by decide),
      getD_addLags_ne _ _ _ (by decide) (by decide) (by decide),
      getD_addLags_ne _ _ _ (by decide) (by decide) (by decide)]
  · refine ⟨shiftDown 7 (getD df "activity_score"), ?_, shiftDown_length _ _,
      fun i hi => shiftDown_getD _ _ _ hi⟩
    unfold create_forecast_features
    simp only [List.foldl_cons, List.foldl_nil]
    rw [getCol?_addTarget_ne _ _ (by decide),
      getCol?_addRolls_ne _ _ _ (by decide) (by decide),
      getCol?_addRolls_ne _ _ _ (by decide) (by decide),
      getCol?_addLags_activity _ _ (by
        rw [hasCol_addLags_ne _ _ _ (by decide) (by decide) (by decide),
          hasCol_addLags_ne _ _ _ (by decide) (by decide) (by decide),
          hasCol_addLags_ne _ _ _ (by decide) (by decide) (by decide)]
        exact hc) (by decide) (by decide),
      getD_addLags_ne _ _ _ (by decide) (by decide) (by decide),
      getD_addLags_ne _ _ _ (by decide) (by decide) (by decide),
      getD_addLags_ne _ _ _ (by decide) (by decide) (by decide)]

/-- C6: for every configured window `w ∈ {3, 7}` and every sequence
position `i`, the rolling feature column at position `i` equals the
arithmetic mean of the source metric over the trailing `w` positions
`[i - w + 1, i]` (the window `windowOf src i w`) when `w ≤ i + 1` and all
`w` of those values are present, and is absent otherwise — prior to median
fill. -/
theorem claim_C6_rolling_features (df : DF) (w : ℕ) (hw : w ∈ ([3, 7] : List ℕ))
    (nmS nmR : String)
    (hm : (nmS, nmR) ∈ [("readiness_score", "readiness_roll"), ("sleep_score", "sleep_roll")])
    (hc : hasCol df nmS = true) :
    ∃ c, getCol? (create_forecast_features df) (nmR ++ toString w) = some c ∧
      c.length = (getD df nmS).length ∧
      ∀ i, i < (getD df nmS).length →
        c.getD i none =
          if w ≤ i + 1 ∧ (windowOf (getD df nmS) i w).all Option.isSome then
            some ((presentVals (windowOf (getD df nmS) i w)).sum / (w : ℚ))
          else none := by
  simp only [List.mem_cons, List.not_mem_nil, or_false, Prod.mk.injEq] at hm hw
  rcases hm with ⟨rfl, rfl⟩ | ⟨rfl, rfl⟩ <;> rcases hw with rfl | rfl
  · refine ⟨rollMean 3 (getD df "readiness_score"), ?_, rollMean_length _ _,
      fun i hi => rollMean_getD _ _ _ hi⟩
    unfold create_forecast_features
    simp only [List.foldl_cons, List.foldl_nil]
    rw [getCol?_addTarget_ne _ _ (by decide),
      getCol?_addRolls_ne _ _ _ (by decide) (by decide),
      getCol?_addRolls_readiness _ _ (by
        rw [hasCol_addLags_ne _ _ _ (by decide) (by decide) (by decide),
          hasCol_addLags_ne _ _ _ (by decide) (by decide) (by decide),
          hasCol_addLags_ne _ _ _ (by decide) (by decide) (by decide),
          hasCol_addLags_ne _ _ _ (by decide) (by decide) (by decide)]
        exact hc) (by decide),
      getD_addLags_ne _ _ _ (by decide) (by decide) (by decide),
      getD_addLags_ne _ _ _ (by decide) (by decide) (by decide),
      getD_addLags_ne _ _ _ (by decide) (by decide) (by decide),
      getD_addLags_ne _ _ _ (by decide) (by decide) (by decide)]
  · refine ⟨rollMean 7 (getD df "readiness_score"), ?_, rollMean_length _ _,
      fun i hi => rollMean_getD _ _ _ hi⟩
    unfold create_forecast_features
    simp only [List.foldl_cons, List.foldl_nil]
    rw [getCol?_addTarget_ne _ _ (by decide),
      getCol?_addRolls_readiness _ _ (by
        rw [hasCol_addRolls_ne _ _ _ (by decide) (by decide),
          hasCol_addLags_ne _ _ _ (by decide) (by decide) (by decide),
          hasCol_addLags_ne _ _ _ (by decide) (by decide) (by decide),
          hasCol_addLags_ne _ _ _ (by decide) (by decide) (by decide),
          hasCol_addLags_ne _ _ _ (by decide) (by decide) (by decide)]
        exact hc) (by decide),
      getD_addRolls_ne _ _ _ (by decide) (by decide),
      getD_addLags_ne _ _ _ (by decide) (by decide) (by decide),
      getD_addLags_ne _ _ _ (by decide) (by decide) (by decide),
      getD_addLags_ne _ _ _ (by decide) (by decide) (by decide),
      getD_addLags_ne _ _ _ (by decide) (by decide) (by decide)]
  · refine ⟨rollMean 3 (getD df "sleep_score"), ?_, rollMean_length _ _,
      fun i hi => rollMean_getD _ _ _ hi⟩
    unfold create_forecast_features
    simp only [List.foldl_cons, List.foldl_nil]
    rw [getCol?_addTarget_ne _ _ (by decide),
      getCol?_addRolls_ne _ _ _ (by decide) (by decide),
      getCol?_addRolls_sleep _ _ (by
        rw [hasCol_addLags_ne _ _ _ (by decide) (by decide) (by decide),
          hasCol_addLags_ne _ _ _ (by decide) (by decide) (by decide),
          hasCol_addLags_ne _ _ _ (by decide) (by decide) (by decide),
          hasCol_addLags_ne _ _ _ (by decide) (by decide) (by decide)]
        exact hc) (by decide),
      getD_addLags_ne _ _ _ (by decide) (by decide) (by decide),
      getD_addLags_ne _ _ _ (by decide) (by decide) (by decide),
      getD_addLags_ne _ _ _ (by decide) (by decide) (by decide),
      getD_addLags_ne _ _ _ (by decide) (by decide) (by decide)]
  · refine ⟨rollMean 7 (getD df "sleep_score"), ?_, rollMean_length _ _,
      fun i hi => rollMean_getD _ _ _ hi⟩
    unfold create_forecast_features
    simp only [List.foldl_cons, List.foldl_nil]
    rw [getCol?_addTarget_ne _ _ (by decide),
      getCol?_addRolls_sleep _ _ (by
        rw [hasCol_addRolls_ne _ _ _ (by decide) (by decide),
          hasCol_addLags_ne _ _ _ (by decide) (by decide) (by decide),
          hasCol_addLags_ne _ _ _ (by decide) (by decide) (by decide),
          hasCol_addLags_ne _ _ _ (by decide) (by decide) (by decide),
          hasCol_addLags_ne _ _ _ (by decide) (by decide) (by decide)]
        exact hc) (by decide),
      getD_addRolls_ne _ _ _ (by decide) (by decide),
      getD_addLags_ne _ _ _ (by decide) (by decide) (by decide),
      getD_addLags_ne _ _ _ (by decide) (by decide) (by decide),
      getD_addLags_ne _ _ _ (by decide) (by decide) (by decide),
      getD_addLags_ne _ _ _ (by decide) (by decide) (by decide)]

/-- C6 witness: the window-3 readiness rolling column of the ten-row sample
frame. -/
theorem claim_C6_rolling_features_witness :
    ∃ c, getCol? (create_forecast_features sampleTen) ("readiness_roll" ++ toString 3) = some c ∧
      c.length = (getD sampleTen "readiness_score").length ∧
      ∀ i, i < (getD sampleTen "readiness_score").length →
        c.getD i none =
          if 3 ≤ i + 1 ∧ (windowOf (getD sampleTen "readiness_score") i 3).all Option.isSome then
            some ((presentVals (windowOf (getD sampleTen "readiness_score") i 3)).sum / (3 : ℚ))
          else none :=
  claim_C6_rolling_features sampleTen 3 (by decide) "readiness_score" "readiness_roll"
    (by decide) (by decide)

/-- C7: the target column at position `i` is the readiness value at
position `i + 1`; the final position's target is always absent before
filtering; and the retained frame's dates form a sublist of all dates but
the last, so the final row never survives target filtering. -/
theorem claim_C7_target_column (df : DF) (hc : hasCol df "readiness_score" = true)
    (hw : WF df = true) :
    ∃ c, getCol? (create_forecast_features df) "target_readiness" = some c ∧
      c.length = (getD df "readiness_score").length ∧
      (∀ i, i + 1 < (getD df "readiness_score").length →
        c.getD i none = (getD df "readiness_score").getD (i + 1) none) ∧
      (getD df "readiness_score" ≠ [] →
        c.getD ((getD df "readiness_score").length - 1) none = none) ∧
      (retainedD df).dates.Sublist df.dates.dropLast := by
  refine ⟨shiftUp (getD df "readiness_score"), cff_target df hc, shiftUp_length _,
    fun i hi => shiftUp_getD _ i hi, fun hne => shiftUp_getD_last _ hne, ?_⟩
  have hgd : getD (create_forecast_features df) "target_readiness"
      = shiftUp (getD df "readiness_score") := by
    unfold getD
    rw [cff_target df hc]
    rfl
  have hdl : (getD df "readiness_score").length = df.dates.length := WF_getD_length df _ hw hc
  rw [retainedD_dates, hgd, dates_cff]
  cases hr : getD df "readiness_score" with
  | nil => simp [shiftUp, maskFilter_nil_mask]
  | cons x t =>
    show (maskFilter ((t ++ [none]).map Option.isSome) df.dates).Sublist df.dates.dropLast
    rw [List.map_append]
    apply maskFilter_append_false
    have hx : (x :: t).length = df.dates.length := by rw [← hr]; exact hdl
    simpa using hx

/-- C7 witness: the target column of the ten-row sample frame. -/
theorem claim_C7_target_column_witness :
    ∃ c, getCol? (create_forecast_features sampleTen) "target_readiness" = some c ∧
      c.length = (getD sampleTen "readiness_score").length ∧
      (∀ i, i + 1 < (getD sampleTen "readiness_score").length →
        c.getD i none = (getD sampleTen "readiness_score").getD (i + 1) none) ∧
      (getD sampleTen "readiness_score" ≠ [] →
        c.getD ((getD sampleTen "readiness_score").length - 1) none = none) ∧
      (retainedD sampleTen).dates.Sublist sampleTen.dates.dropLast :=
  claim_C7_target_column sampleTen (by decide) (by decide)

/-- C8: after target-row exclusion, every feature column with at least one
absent value has its absent entries replaced by that column's median over
the whole retained set (present entries are kept), and a feature column
with no absent value is left unchanged. -/
theorem claim_C8_median_fill (df : DF) (nm : String) (xs : Col)
    (hf : isFeatureCol nm = true)
    (hx : getCol? (retainedD df) nm = some xs) :
    ∃ ys, getCol? (filledD df) nm = some ys ∧
      ys.length = xs.length ∧
      (xs.any Option.isNone = true →
        ∀ i, i < xs.length →
          ys.getD i none = match xs.getD i none with
            | some v => some v
            | none => medianQ (presentVals xs)) ∧
      (xs.any Option.isNone = false → ys = xs) := by
  have h1 : getCol? (filledD df) nm = some (fillOne nm xs) := by
    unfold filledD
    rw [getCol?_fillCols, hx]
    rfl
  cases ha : xs.any Option.isNone with
  | true =>
    refine ⟨fillna xs (colMedian xs), ?_, fillna_length _ _, ?_, ?_⟩
    · rw [h1]
      unfold fillOne
      rw [hf, ha]
      simp
    · intro _ i hi
      have hp := fillna_getD xs (colMedian xs) i hi
      simpa [colMedian] using hp
    · intro hfalse
      simp at hfalse
  | false =>
    refine ⟨xs, ?_, rfl, ?_, fun _ => rfl⟩
    · rw [h1]
      unfold fillOne
      rw [hf, ha]
      simp
    · intro htrue
      simp at htrue

/-- C8 witness: the lag-1 readiness column of the retained ten-row sample
frame has one absent entry and gets median-filled. -/
theorem claim_C8_median_fill_witness :
    ∃ ys, getCol? (filledD sampleTen) "readiness_lag1" = some ys ∧
      ys.length = (sampleTenLag1 : Col).length ∧
      ((sampleTenLag1 : Col).any Option.isNone = true →
        ∀ i, i < (sampleTenLag1 : Col).length →
          ys.getD i none = match (sampleTenLag1 : Col).getD i none with
            | some v => some v
            | none => medianQ (presentVals sampleTenLag1)) ∧
      ((sampleTenLag1 : Col).any Option.isNone = false → ys = sampleTenLag1) :=
  claim_C8_median_fill sampleTen "readiness_lag1" sampleTenLag1 (by decide) (by decide)

/-- C10: a feature column that is absent in every retained row has an
absent median, survives the median-fill step with every entry still
absent, and is kept by feature selection, so the all-absent column reaches
the standardisation and model-fitting steps. -/
theorem claim_C10_all_absent_column (df : DF) (nm : String) (xs : Col)
    (hf : isFeatureCol nm = true)
    (hx : getCol? (retainedD df) nm = some xs)
    (hall : ∀ o ∈ xs, o = none) :
    colMedian xs = none ∧
    getCol? (filledD df) nm = some xs ∧
    getCol? (selectX (filledD df)) nm = some xs := by
  have hmed : colMedian xs = none := by
    unfold colMedian presentVals
    rw [List.filterMap_eq_nil_iff.mpr (by simpa using hall)]
    rfl
  have h1 : getCol? (filledD df) nm = some (fillOne nm xs) := by
    unfold filledD
    rw [getCol?_fillCols, hx]
    rfl
  have h2 : fillOne nm xs = xs := by
    unfold fillOne
    rw [hmed]
    split
    · exact fillna_none xs
    · rfl
  refine ⟨hmed, by rw [h1, h2], ?_⟩
  rw [getCol?_selectX, if_pos hf, h1, h2]

/-- C10 witness: the lag-7 readiness column of the retained five-row sample
frame is absent everywhere and passes through untouched. -/
theorem claim_C10_all_absent_column_witness :
    colMedian [none, none, none, none] = none ∧
    getCol? (filledD sampleFive) "readiness_lag7" = some [none, none, none, none] ∧
    getCol? (selectX (filledD sampleFive)) "readiness_lag7" = some [none, none, none, none] :=
  claim_C10_all_absent_column sampleFive "readiness_lag7" [none, none, none, none]
    (by decide) (by decide) (by decide)

/-- C5 witness: the lag-2 readiness column of the ten-row sample frame. -/
theorem claim_C5_lag_features_witness :
    ∃ c, getCol? (create_forecast_features sampleTen) ("readiness_lag" ++ toString 2) = some c ∧
      c.length = (getD sampleTen "readiness_score").length ∧
      ∀ i, i < (getD sampleTen "readiness_score").length →
        c.getD i none = if 2 ≤ i then (getD sampleTen "readiness_score").getD (i - 2) none
          else none :=
  claim_C5_lag_features sampleTen 2 (by decide) "readiness_score" "readiness_lag" (by decide)
    (by decide)

/-- C2: a row is flagged anomalous if and only if its readiness value is
present and lies strictly outside `mean ± 2·std` (sample standard
deviation over the present values), and every unflagged present value is
within two standard deviations of the mean. -/
theorem claim_C2_anomaly_characterisation (df : DF)
    (hc : hasCol df "readiness_score" = true)
    (h2 : 2 ≤ (presentVals (getD df "readiness_score")).length) :
    ∃ fl, detect_anomalies df = some fl ∧
      (∀ p : ℤ × Option ℚ, p ∈ fl ↔ p ∈ rowsR df ∧ ∃ v : ℚ, p.2 = some v ∧
        ((v : ℝ) < (meanQ (presentVals (getD df "readiness_score")) : ℝ)
            - 2 * stdR (presentVals (getD df "readiness_score")) ∨
          (meanQ (presentVals (getD df "readiness_score")) : ℝ)
            + 2 * stdR (presentVals (getD df "readiness_score")) < (v : ℝ))) ∧
      (∀ p ∈ rowsR df, p ∉ fl → ∀ v : ℚ, p.2 = some v →
        |(v : ℝ) - (meanQ (presentVals (getD df "readiness_score")) : ℝ)|
          ≤ 2 * stdR (presentVals (getD df "readiness_score"))) := by
  classical
  refine ⟨_, by unfold detect_anomalies; rw [if_pos hc], ?_, ?_⟩
  · intro p
    rw [List.mem_filter]
    constructor
    · rintro ⟨hmem, hdec⟩
      rw [decide_eq_true_eq] at hdec
      unfold anomCond at hdec
      rcases hv : p.2 with _ | v
      · rw [hv] at hdec
        exact hdec.elim
      · rw [hv] at hdec
        exact ⟨hmem, v, rfl, hdec.2⟩
    · rintro ⟨hmem, v, hv, hdisj⟩
      refine ⟨hmem, ?_⟩
      rw [decide_eq_true_eq]
      unfold anomCond
      rw [hv]
      exact ⟨h2, hdisj⟩
  · intro p hmem hnot v hv
    by_contra habs
    apply hnot
    rw [List.mem_filter]
    refine ⟨hmem, ?_⟩
    rw [decide_eq_true_eq]
    unfold anomCond
    rw [hv]
    refine ⟨h2, ?_⟩
    rcases lt_abs.mp (not_le.mp habs) with hgt | hlt
    · right
      linarith
    · left
      linarith

/-- C2 witness: the eight-row spiked sample frame. -/
theorem claim_C2_anomaly_characterisation_witness :
    ∃ fl, detect_anomalies sampleSpike = some fl ∧
      (∀ p : ℤ × Option ℚ, p ∈ fl ↔ p ∈ rowsR sampleSpike ∧ ∃ v : ℚ, p.2 = some v ∧
        ((v : ℝ) < (meanQ (presentVals (getD sampleSpike "readiness_score")) : ℝ)
            - 2 * stdR (presentVals (getD sampleSpike "readiness_score")) ∨
          (meanQ (presentVals (getD sampleSpike "readiness_score")) : ℝ)
            + 2 * stdR (presentVals (getD sampleSpike "readiness_score")) < (v : ℝ))) ∧
      (∀ p ∈ rowsR sampleSpike, p ∉ fl → ∀ v : ℚ, p.2 = some v →
        |(v : ℝ) - (meanQ (presentVals (getD sampleSpike "readiness_score")) : ℝ)|
          ≤ 2 * stdR (presentVals (getD sampleSpike "readiness_score"))) :=
  claim_C2_anomaly_characterisation sampleSpike (by decide) (by decide)

/-- C3: with fewer than 2 present readiness values (standard deviation
undefined) or with all present values equal (standard deviation zero), the
anomaly detector returns an empty flag list rather than failing. -/
theorem claim_C3_degenerate_variance (df : DF)
    (hc : hasCol df "readiness_score" = true)
    (hdeg : (presentVals (getD df "readiness_score")).length < 2 ∨
      ∀ x ∈ presentVals (getD df "readiness_score"),
        ∀ y ∈ presentVals (getD df "readiness_score"), x = y) :
    detect_anomalies df = some [] := by
  classical
  unfold detect_anomalies
  rw [if_pos hc]
  congr 1
  rw [List.filter_eq_nil_iff]
  rintro ⟨pd, pv⟩ hp
  simp only [decide_eq_true_eq]
  intro hcond
  unfold anomCond at hcond
  rcases hv : pv with _ | v
  · rw [hv] at hcond
    exact hcond
  · rw [hv] at hcond
    rcases hdeg with hlt | hall
    · exact absurd hcond.1 (by omega)
    · have hvcol : (some v : Option ℚ) ∈ getD df "readiness_score" := by
        have := (List.of_mem_zip hp).2
        rwa [hv] at this
      have hvp : v ∈ presentVals (getD df "readiness_score") :=
        List.mem_filterMap.mpr ⟨some v, hvcol, rfl⟩
      have hne : presentVals (getD df "readiness_score") ≠ [] :=
        List.ne_nil_of_mem hvp
      have hmean : meanQ (presentVals (getD df "readiness_score")) = v :=
        meanQ_const _ v hne (fun x hx => hall x hx v hvp)
      have hstd : stdR (presentVals (getD df "readiness_score")) = 0 := by
        unfold stdR
        rw [varQ_const _ v hne (fun x hx => hall x hx v hvp)]
        simp
      rcases hcond.2 with hlow | hhigh
      · rw [hmean, hstd] at hlow
        simp at hlow
      · rw [hmean, hstd] at hhigh
        simp at hhigh

/-- C3 witness: the constant ten-row sample frame yields no flags. -/
theorem claim_C3_degenerate_variance_witness :
    detect_anomalies sampleConst = some [] :=
  claim_C3_degenerate_variance sampleConst (by decide) (by decide)

/-- C4 counterexample: a frame whose readiness column exists but is absent
in every record.  The metric is absent from every input record, yet the
baseline output still carries a `readiness` entry (with NaN statistics)
instead of omitting it. -/
theorem claim_C4_counterexample :
    (∀ o ∈ getD sampleNaN "readiness_score", o = none) ∧
    (calculate_personal_baselines sampleNaN).map Prod.fst = ["readiness"] := by
  refine ⟨by decide, rfl⟩

/-- C4 (amended): a metric whose column is missing from the frame is
omitted from the baseline output; a metric whose column is present gets a
`{mean, median, std}` entry computed over exactly its non-absent values,
with the sample (n-1) standard deviation — and when the column is present
but every value is absent the entry still appears, with NaN (`none`)
statistics, rather than being omitted. -/
theorem claim_C4_baselines_amended (df : DF) (nmC key : String)
    (hm : (nmC, key) ∈ [("readiness_score", "readiness"), ("sleep_score", "sleep"),
      ("activity_score", "activity")]) :
    (hasCol df nmC = false →
      (calculate_personal_baselines df).find? (fun p => p.1 == key) = none) ∧
    (hasCol df nmC = true → ∃ s : Stats,
      (calculate_personal_baselines df).find? (fun p => p.1 == key) = some (key, s) ∧
      ((presentVals (getD df nmC)).length = 0 →
        s.mean = none ∧ s.median = none ∧ s.std = none) ∧
      (0 < (presentVals (getD df nmC)).length →
        s.mean = some ((presentVals (getD df nmC)).sum
            / ((presentVals (getD df nmC)).length : ℚ)) ∧
        s.median = medianQ (presentVals (getD df nmC))) ∧
      (2 ≤ (presentVals (getD df nmC)).length →
        s.std = some (Real.sqrt ((((presentVals (getD df nmC)).map
          (fun x => (x - (presentVals (getD df nmC)).sum
            / ((presentVals (getD df nmC)).length : ℚ)) ^ 2)).sum
              / (((presentVals (getD df nmC)).length : ℚ) - 1) : ℚ)))) ∧
      ((presentVals (getD df nmC)).length < 2 → s.std = none)) := by
  simp only [List.mem_cons, List.not_mem_nil, or_false, Prod.mk.injEq] at hm
  rcases hm with ⟨rfl, rfl⟩ | ⟨rfl, rfl⟩ | ⟨rfl, rfl⟩
  · constructor
    · intro h0
      by_cases hS : hasCol df "sleep_score" <;> by_cases hA : hasCol df "activity_score" <;>
        simp [calculate_personal_baselines, h0, hS, hA]
    · intro h1
      refine ⟨statsOf (getD df "readiness_score"), ?_, (statsOf_spec _).1,
        (statsOf_spec _).2.1, (statsOf_spec _).2.2.1, (statsOf_spec _).2.2.2⟩
      by_cases hS : hasCol df "sleep_score" <;> by_cases hA : hasCol df "activity_score" <;>
        simp [calculate_personal_baselines, h1, hS, hA]
  · constructor
    · intro h0
      by_cases hR : hasCol df "readiness_score" <;> by_cases hA : hasCol df "activity_score" <;>
        simp [calculate_personal_baselines, h0, hR, hA]
    · intro h1
      refine ⟨statsOf (getD df "sleep_score"), ?_, (statsOf_spec _).1,
        (statsOf_spec _).2.1, (statsOf_spec _).2.2.1, (statsOf_spec _).2.2.2⟩
      by_cases hR : hasCol df "readiness_score" <;> by_cases hA : hasCol df "activity_score" <;>
        simp [calculate_personal_baselines, h1, hR, hA]
  · constructor
    · intro h0
      by_cases hR : hasCol df "readiness_score" <;> by_cases hS : hasCol df "sleep_score" <;>
        simp [calculate_personal_baselines, h0, hR, hS]
    · intro h1
      refine ⟨statsOf (getD df "activity_score"), ?_, (statsOf_spec _).1,
        (statsOf_spec _).2.1, (statsOf_spec _).2.2.1, (statsOf_spec _).2.2.2⟩
      by_cases hR : hasCol df "readiness_score" <;> by_cases hS : hasCol df "sleep_score" <;>
        simp [calculate_personal_baselines, h1, hR, hS]

/-- C4 witness: the all-absent readiness frame instantiates the amended
claim; its readiness baseline entry exists with NaN statistics. -/
theorem claim_C4_baselines_amended_witness :
    (hasCol sampleNaN "readiness_score" = false →
      (calculate_personal_baselines sampleNaN).find? (fun p => p.1 == "readiness") = none) ∧
    (hasCol sampleNaN "readiness_score" = true → ∃ s : Stats,
      (calculate_personal_baselines sampleNaN).find? (fun p => p.1 == "readiness")
          = some ("readiness", s) ∧
      ((presentVals (getD sampleNaN "readiness_score")).length = 0 →
        s.mean = none ∧ s.median = none ∧ s.std = none) ∧
      (0 < (presentVals (getD sampleNaN "readiness_score")).length →
        s.mean = some ((presentVals (getD sampleNaN "readiness_score")).sum
            / ((presentVals (getD sampleNaN "readiness_score")).length : ℚ)) ∧
        s.median = medianQ (presentVals (getD sampleNaN "readiness_score"))) ∧
      (2 ≤ (presentVals (getD sampleNaN "readiness_score")).length →
        s.std = some (Real.sqrt ((((presentVals (getD sampleNaN "readiness_score")).map
          (fun x => (x - (presentVals (getD sampleNaN "readiness_score")).sum
            / ((presentVals (getD sampleNaN "readiness_score")).length : ℚ)) ^ 2)).sum
              / (((presentVals (getD sampleNaN "readiness_score")).length : ℚ) - 1) : ℚ)))) ∧
      ((presentVals (getD sampleNaN "readiness_score")).length < 2 → s.std = none)) :=
  claim_C4_baselines_amended sampleNaN "readiness_score" "readiness" (by decide)

/-- C9: the split is `shuffle=False` chronological — whenever
`forecast_readiness` reaches training, the partitions it trains and
evaluates on are exactly the first `n - ceil(n/5)` rows and the last
`ceil(n/5)` rows in order, and (for strictly increasing dates) every date
in the training partition precedes every date in the evaluation
partition. -/
theorem claim_C9_chronological_split (df : DF) (hsort : df.dates.Pairwise (· < ·)) :
    (∀ a b c d, forecast_readiness df = .trained a b c d →
      a = trainX df ∧ b = testX df ∧ c = trainY df ∧ d = testY df) ∧
    (trainX df).dates = (filledD df).dates.take (nTrain (nRows (filledD df))) ∧
    (testX df).dates = (filledD df).dates.drop (nTrain (nRows (filledD df))) ∧
    (∀ d1 ∈ (trainX df).dates, ∀ d2 ∈ (testX df).dates, d1 < d2) := by
  have hP : (filledD df).dates.Pairwise (· < ·) := by
    rw [filledD_dates, retainedD_dates, dates_cff]
    exact List.Pairwise.sublist (maskFilter_sublist _ _) hsort
  refine ⟨?_, trainX_dates df, testX_dates df, ?_⟩
  · intro a b c d h
    unfold forecast_readiness at h
    split at h
    · exact Outcome.noConfusion h
    · split at h
      · exact Outcome.noConfusion h
      · split at h
        · exact Outcome.noConfusion h
        · injection h with h1 h2 h3 h4
          exact ⟨h1.symm, h2.symm, h3.symm, h4.symm⟩
  · intro d1 hd1 d2 hd2
    rw [trainX_dates] at hd1
    rw [testX_dates] at hd2
    have hsplit := List.pairwise_append.mp
      (by rw [List.take_append_drop]; exact hP :
        ((filledD df).dates.take (nTrain (nRows (filledD df)))
          ++ (filledD df).dates.drop (nTrain (nRows (filledD df)))).Pairwise (· < ·))
    exact hsplit.2.2 d1 hd1 d2 hd2

/-- C9 witness: the ten-row sample frame splits chronologically. -/
theorem claim_C9_chronological_split_witness :
    (∀ a b c d, forecast_readiness sampleTen = .trained a b c d →
      a = trainX sampleTen ∧ b = testX sampleTen ∧ c = trainY sampleTen ∧ d = testY sampleTen) ∧
    (trainX sampleTen).dates
      = (filledD sampleTen).dates.take (nTrain (nRows (filledD sampleTen))) ∧
    (testX sampleTen).dates
      = (filledD sampleTen).dates.drop (nTrain (nRows (filledD sampleTen))) ∧
    (∀ d1 ∈ (trainX sampleTen).dates, ∀ d2 ∈ (testX sampleTen).dates, d1 < d2) :=
  claim_C9_chronological_split sampleTen (by decide)

/-- C1 (code bug): with two input rows exactly one row survives target
filtering; the `len == 0` guard does not fire, `train_test_split` is
reached with one sample and a train partition of size zero, and it raises
instead of reporting insufficient data.  With one input row zero rows
survive and the insufficient-data path is taken, showing the guard only
covers the zero-row case claimed to extend to "fewer than 2". -/
theorem claim_C1_one_row_crashes :
    forecast_readiness sampleTwo = .splitError ∧
    nRows (filledD sampleTwo) = 1 ∧
    forecast_readiness sampleOne = .insufficient := by
  refine ⟨by decide, by decide, by decide⟩

end Oura
